import Mathlib

/-!
Verification of the GitHub Profile Search core (src/script.js): the
search/fetch pipeline, the client-side rate gate, the formatting helpers
and the search-history feature.  JavaScript runtime values that the code
relies on are modelled explicitly: `NaN` produced by `parseInt` is
`Option.none`, a rejected `fetch` promise is `FetchOutcome.transportError`,
and `Promise.all` over two promises is a deterministic join parameterised
by which rejection settles first when both reject.
-/

/-- The ECMAScript white-space and line-terminator code points recognised by
`String.prototype.trim` and by `parseInt`. -/
def isJsWhitespace (c : Char) : Bool :=
  c = ' ' || c = '\t' || c = '\n' || c = '\r' ||
  c = '\x0b' || c = '\x0c' || c = '\u00a0' || c = '\u1680' ||
  ('\u2000' ≤ c && c ≤ '\u200a') || c = '\u2028' || c = '\u2029' ||
  c = '\u202f' || c = '\u205f' || c = '\u3000' || c = '\ufeff'

/-- `String.prototype.trim`: strip leading and trailing JS white space
(src/script.js line 84: `this.usernameInput.value.trim()`). -/
def jsTrim (s : String) : String :=
  String.mk (((s.data.dropWhile isJsWhitespace).reverse.dropWhile
    isJsWhitespace).reverse)

/-- Value of a decimal digit character. -/
def decDigitVal (c : Char) : Nat := c.toNat - 48

/-- Hexadecimal digit recogniser for `parseInt` with a `0x` prefix. -/
def isHexDigitJs (c : Char) : Bool :=
  c.isDigit || ('a' ≤ c && c ≤ 'f') || ('A' ≤ c && c ≤ 'F')

/-- Value of a hexadecimal digit character. -/
def hexDigitVal (c : Char) : Nat :=
  if c.isDigit then c.toNat - 48
  else if 'a' ≤ c then c.toNat - 87
  else c.toNat - 55

/-- Longest prefix of digits in the given radix, `none` when empty
(`parseInt` returns `NaN` when no digit can be consumed). -/
def radixDigitsVal (radix : Nat) (isD : Char → Bool) (val : Char → Nat)
    (l : List Char) : Option Nat :=
  let ds := l.takeWhile isD
  if ds.isEmpty then none
  else some (ds.foldl (fun a c => a * radix + val c) 0)

/-- `parseInt` after white space and sign stripping: a `0x`/`0X` prefix
selects radix 16, otherwise radix 10. -/
def parseIntNoSign (l : List Char) : Option Nat :=
  match l with
  | '0' :: x :: rest =>
    if x = 'x' || x = 'X' then radixDigitsVal 16 isHexDigitJs hexDigitVal rest
    else radixDigitsVal 10 Char.isDigit decDigitVal ('0' :: x :: rest)
  | _ => radixDigitsVal 10 Char.isDigit decDigitVal l

/-- ECMAScript `parseInt(s)` (no explicit radix): strip leading white space,
an optional sign, then consume digits; `none` models the `NaN` result. -/
def parseIntJs (s : String) : Option Int :=
  let l := s.data.dropWhile isJsWhitespace
  match l with
  | '-' :: rest => (parseIntNoSign rest).map (fun n => -(n : Int))
  | '+' :: rest => (parseIntNoSign rest).map (fun n => (n : Int))
  | _ => (parseIntNoSign l).map (fun n => (n : Int))

/-- The two rate-limit response headers consumed by `updateRateLimit`;
`none` models `headers.get` returning `null`. -/
structure Headers where
  rateRemaining : Option String
  rateReset : Option String
deriving DecidableEq

/-- `this.rateLimit`: the rate gate's state.  Each field is an `Option Int`
whose `none` models the JavaScript `NaN` that `parseInt` can store there. -/
structure RateState where
  remaining : Option Int
  reset : Option Int
deriving DecidableEq

/-- JavaScript `a || b` specialised to the `headers.get(...) || '0'`
pattern: the default is taken when the value is `null` or the empty string
(both falsy). -/
def jsOrString (v : Option String) (dflt : String) : String :=
  match v with
  | none => dflt
  | some s => if s = "" then dflt else s

/-- `updateRateLimit` (src/script.js lines 290-293): overwrite both fields
from the response headers, substituting `'0'` for a missing header before
parsing. -/
def updateRateLimit (h : Headers) : RateState :=
  { remaining := parseIntJs (jsOrString h.rateRemaining "0")
    reset := parseIntJs (jsOrString h.rateReset "0") }

/-- `checkRateLimit` (src/script.js lines 295-304).  `nowMs` is
`Date.now()` in milliseconds; the stored reset value is epoch seconds and
is multiplied by 1000 before the comparison.  A `NaN` field makes the
corresponding JS comparison false, so the function returns `true`. -/
def checkRateLimit (st : RateState) (nowMs : Int) : Bool :=
  match st.remaining with
  | none => true
  | some r =>
    if r ≤ 0 then
      match st.reset with
      | none => true
      | some t => if nowMs < t * 1000 then false else true
    else true

/-- C3: for every rate state with integer fields and every current time,
`checkRateLimit` returns `false` if and only if the remaining count is at
most 0 and the current time is strictly before the reset instant; in every
other such state it returns `true`. -/
theorem checkRateLimit_false_iff (r t nowMs : Int) :
    checkRateLimit ⟨some r, some t⟩ nowMs = false ↔
      (r ≤ 0 ∧ nowMs < t * 1000) := by
  simp only [checkRateLimit]
  by_cases hr : r ≤ 0 <;> by_cases ht : nowMs < t * 1000 <;>
    simp [hr, ht]

/-- C3, witness: a concrete exhausted state strictly before its reset time
is reported unavailable. -/
theorem checkRateLimit_false_iff_witness :
    checkRateLimit ⟨some 0, some 10⟩ 5 = false :=
  (checkRateLimit_false_iff 0 10 5).mpr (by decide)

/-- C5, counterexample: a present but unparseable rate-limit header does
not store `0` — `parseInt('abc')` is `NaN` (modelled `none`), so the
stored remaining count differs from `some 0`. -/
theorem unparseable_header_stores_nan :
    (updateRateLimit ⟨some "abc", none⟩).remaining = none ∧
      (none : Option Int) ≠ some 0 := by
  constructor
  · decide
  · decide

/-- C5 (amended): absent (or empty) rate-limit headers store
`remainingRequests = 0` and `resetEpochSeconds = 0`, and a subsequent
`checkRateLimit` at any nonnegative time returns `true` because the epoch-0
reset is already past; a present but unparseable header instead stores
`NaN`, and a subsequent `checkRateLimit` also returns `true` because every
comparison against `NaN` is false. -/
theorem missing_headers_never_block :
    (∀ nowMs : Int, 0 ≤ nowMs →
      updateRateLimit ⟨none, none⟩ = ⟨some 0, some 0⟩ ∧
      checkRateLimit (updateRateLimit ⟨none, none⟩) nowMs = true) ∧
    (∀ s : String, s ≠ "" → parseIntJs s = none → ∀ r nowMs,
      (updateRateLimit ⟨some s, r⟩).remaining = none ∧
      checkRateLimit (updateRateLimit ⟨some s, r⟩) nowMs = true) := by
  constructor
  · intro nowMs hnow
    refine ⟨by decide, ?_⟩
    have h0 : updateRateLimit ⟨none, none⟩ = ⟨some 0, some 0⟩ := by decide
    rw [h0]
    simp only [checkRateLimit]
    have : ¬ nowMs < (0 : Int) * 1000 := by omega
    simp [this]
    omega
  · intro s hs hparse r nowMs
    have hrem : (updateRateLimit ⟨some s, r⟩).remaining = none := by
      simp [updateRateLimit, jsOrString, hs, hparse]
    refine ⟨hrem, ?_⟩
    unfold checkRateLimit
    rw [hrem]

/-- C5, witness: concrete instances of both parts of
`missing_headers_never_block`. -/
theorem missing_headers_never_block_witness :
    checkRateLimit (updateRateLimit ⟨none, none⟩) 7 = true ∧
      checkRateLimit (updateRateLimit ⟨some "abc", none⟩) 7 = true :=
  ⟨(missing_headers_never_block.1 7 (by decide)).2,
   (missing_headers_never_block.2 "abc" (by decide) (by decide) none 7).2⟩

/-- Outcome of one `fetch` call: either the promise fulfils with an HTTP
response (status, headers, parsed JSON body) or it rejects with a
transport-level error (network failure). -/
inductive FetchOutcome (α : Type) where
  | response (status : Nat) (headers : Headers) (body : α)
  | transportError
deriving DecidableEq

/-- The errors thrown inside the pipeline, one per distinct `throw` site of
src/script.js plus the raw rejection of `fetch` itself; each constructor
stands for the corresponding `Error` message. -/
inductive JsError where
  | userNotFound
  | apiRateLimited
  | profileFetchFailed
  | transport
deriving DecidableEq

/-- The spec's `SearchError` kinds (spec.md §7); `FetchFailed` covers both
an unexpected status and a network/transport failure. -/
inductive SearchError where
  | InvalidInput
  | UserNotFound
  | RateLimited
  | FetchFailed
deriving DecidableEq

/-- Result of one `handleSearch` run, before mapping to the spec's error
kinds: the two pre-fetch early returns, a caught pipeline error, or the
merged profile/repository success. -/
inductive SearchOutcome (α β : Type) where
  | invalidInput
  | rateLimitedLocal
  | failure (e : JsError)
  | success (profile : α) (repos : β)
deriving DecidableEq

/-- Which of the gate check and the two network calls a `handleSearch` run
performed. -/
structure FetchLog where
  rateChecked : Bool
  profileFetched : Bool
  repoFetched : Bool
deriving DecidableEq

/-- Everything observable about one `handleSearch` run: its outcome, the
rate state afterwards, and which external calls it made. -/
structure SearchRun (α β : Type) where
  outcome : SearchOutcome α β
  state : RateState
  log : FetchLog
deriving DecidableEq

/-- `response.ok`: status in the inclusive range 200-299. -/
def okStatus (status : Nat) : Bool := 200 ≤ status && status ≤ 299

/-- The error thrown by `fetchUserProfile` for a non-ok status
(src/script.js lines 122-130). -/
def profileErrorFor (status : Nat) : JsError :=
  if status = 404 then JsError.userNotFound
  else if status = 403 then JsError.apiRateLimited
  else JsError.profileFetchFailed

/-- `fetchUserProfile` (src/script.js lines 115-136) applied to the
outcome of its `fetch`: a transport error propagates; a non-ok status
throws the status-determined error; an ok response first updates the rate
state and then resolves with the body. -/
def fetchUserProfile {α : Type} (net : FetchOutcome α) :
    Except JsError (α × RateState) :=
  match net with
  | FetchOutcome.transportError => Except.error JsError.transport
  | FetchOutcome.response status headers body =>
    if okStatus status then Except.ok (body, updateRateLimit headers)
    else Except.error (profileErrorFor status)

/-- `fetchUserRepositories` (src/script.js lines 138-151) applied to the
outcome of its `fetch`: a transport error propagates (nothing catches it);
a non-ok status degrades to the empty list; an ok response resolves with
the body. -/
def fetchUserRepositories {γ : Type} (net : FetchOutcome (List γ)) :
    Except JsError (List γ) :=
  match net with
  | FetchOutcome.transportError => Except.error JsError.transport
  | FetchOutcome.response status _ body =>
    if okStatus status then Except.ok body else Except.ok []

/-- `Promise.all` over the two pipeline promises: fulfils when both
fulfil; rejects with the sole rejection when exactly one rejects; when
both reject it rejects with whichever settles first, recorded by the
`profileFirst` flag (real promise timing). -/
def promiseAllJoin {A B : Type} (pa : Except JsError A)
    (pb : Except JsError B) (profileFirst : Bool) :
    Except JsError (A × B) :=
  match pa, pb with
  | Except.ok a, Except.ok b => Except.ok (a, b)
  | Except.error e, Except.ok _ => Except.error e
  | Except.ok _, Except.error e => Except.error e
  | Except.error e1, Except.error e2 =>
    Except.error (if profileFirst then e1 else e2)

/-- `handleSearch` (src/script.js lines 83-113).  `profileNet` and
`repoNet` are the outcomes the two `fetch` calls would deliver if issued;
`profileFirst` resolves the `Promise.all` race when both reject.  The rate
state is updated exactly when the profile response is ok — also in runs
that then fail on the repository side, since `updateRateLimit` already ran
inside `fetchUserProfile`. -/
def handleSearch {α γ : Type} (input : String) (nowMs : Int)
    (st : RateState) (profileNet : FetchOutcome α)
    (repoNet : FetchOutcome (List γ)) (profileFirst : Bool) :
    SearchRun α (List γ) :=
  if jsTrim input = "" then
    ⟨SearchOutcome.invalidInput, st, false, false, false⟩
  else if checkRateLimit st nowMs = false then
    ⟨SearchOutcome.rateLimitedLocal, st, true, false, false⟩
  else
    let pr := fetchUserProfile profileNet
    let rr := fetchUserRepositories repoNet
    let stAfter := match pr with
      | Except.ok pst => pst.2
      | Except.error _ => st
    match promiseAllJoin pr rr profileFirst with
    | Except.ok psr => ⟨SearchOutcome.success psr.1.1 psr.2, stAfter,
        true, true, true⟩
    | Except.error e => ⟨SearchOutcome.failure e, stAfter, true, true, true⟩

/-- Map a run's outcome to the spec's `Result<{profile, repositories},
SearchError>` (spec.md §4.2, §7): both rate-limit paths give
`RateLimited`; a transport failure and an unexpected status both give
`FetchFailed`. -/
def specSearchResult {α β : Type} (o : SearchOutcome α β) :
    Except SearchError (α × β) :=
  match o with
  | SearchOutcome.invalidInput => Except.error SearchError.InvalidInput
  | SearchOutcome.rateLimitedLocal => Except.error SearchError.RateLimited
  | SearchOutcome.failure JsError.userNotFound =>
      Except.error SearchError.UserNotFound
  | SearchOutcome.failure JsError.apiRateLimited =>
      Except.error SearchError.RateLimited
  | SearchOutcome.failure JsError.profileFetchFailed =>
      Except.error SearchError.FetchFailed
  | SearchOutcome.failure JsError.transport =>
      Except.error SearchError.FetchFailed
  | SearchOutcome.success p r => Except.ok (p, r)

/-- A list all of whose characters satisfy the predicate is fully dropped
by `dropWhile`. -/
theorem dropWhile_eq_nil_of_all {p : Char → Bool} :
    ∀ l : List Char, (∀ c ∈ l, p c = true) → l.dropWhile p = []
  | [], _ => rfl
  | c :: cs, h => by
    have hc : p c = true := h c (List.mem_cons_self c cs)
    have ih := dropWhile_eq_nil_of_all cs
      (fun x hx => h x (List.mem_cons_of_mem c hx))
    simp [List.dropWhile, hc, ih]

/-- A string of white space trims to the empty string. -/
theorem jsTrim_eq_empty_of_whitespace (s : String)
    (h : ∀ c ∈ s.data, isJsWhitespace c = true) : jsTrim s = "" := by
  unfold jsTrim
  rw [dropWhile_eq_nil_of_all s.data h]
  rfl

/-- C8: an input that is empty or all white space is rejected as invalid
input, before the rate gate is consulted and with neither network call
issued, whatever the rate state and the would-be fetch outcomes. -/
theorem whitespace_input_rejected {α γ : Type} (input : String)
    (nowMs : Int) (st : RateState) (profileNet : FetchOutcome α)
    (repoNet : FetchOutcome (List γ)) (profileFirst : Bool)
    (h : ∀ c ∈ input.data, isJsWhitespace c = true) :
    handleSearch input nowMs st profileNet repoNet profileFirst =
      ⟨SearchOutcome.invalidInput, st, false, false, false⟩ ∧
    specSearchResult (handleSearch input nowMs st profileNet repoNet
      profileFirst).outcome = Except.error SearchError.InvalidInput := by
  have ht : jsTrim input = "" := jsTrim_eq_empty_of_whitespace input h
  constructor
  · simp [handleSearch, ht]
  · simp [handleSearch, ht, specSearchResult]

/-- C8, witness: a single-space input is rejected without any call. -/
theorem whitespace_input_rejected_witness :
    handleSearch (α := Unit) (γ := Unit) " " 0 ⟨some 60, some 0⟩
        FetchOutcome.transportError FetchOutcome.transportError true =
      ⟨SearchOutcome.invalidInput, ⟨some 60, some 0⟩, false, false, false⟩ :=
  (whitespace_input_rejected " " 0 ⟨some 60, some 0⟩
    FetchOutcome.transportError FetchOutcome.transportError true
    (by decide)).1

/-- Mapping the status-determined profile error to the spec's kinds gives
the 404/403/other classification of spec.md §4.2 step 4. -/
theorem specSearchResult_profileErrorFor {α β : Type} (status : Nat) :
    specSearchResult (α := α) (β := β)
        (SearchOutcome.failure (profileErrorFor status)) =
      Except.error (if status = 404 then SearchError.UserNotFound
        else if status = 403 then SearchError.RateLimited
        else SearchError.FetchFailed) := by
  unfold profileErrorFor
  by_cases h4 : status = 404 <;> by_cases h3 : status = 403 <;>
    simp [h4, h3, specSearchResult]

/-- C1 (amended): for every input that passes validation and the rate gate
(so both fetches are issued), if the profile fetch completes with a
non-success HTTP status, then `search` returns the error determined solely
by that status — 404 gives `UserNotFound`, 403 gives `RateLimited`, any
other non-success status gives `FetchFailed` — regardless of the
repository fetch's HTTP outcome; when the repository fetch instead rejects
at transport level, this still holds provided the profile rejection
settles first. -/
theorem profile_status_determines_error {α γ : Type} (input : String)
    (nowMs : Int) (st : RateState) (status : Nat) (hdr : Headers)
    (body : α) (repoNet : FetchOutcome (List γ)) (profileFirst : Bool)
    (huser : jsTrim input ≠ "")
    (hrate : checkRateLimit st nowMs = true)
    (hbad : okStatus status = false)
    (hrepo : repoNet ≠ FetchOutcome.transportError ∨ profileFirst = true) :
    specSearchResult (handleSearch input nowMs st
        (FetchOutcome.response status hdr body) repoNet
        profileFirst).outcome =
      Except.error (if status = 404 then SearchError.UserNotFound
        else if status = 403 then SearchError.RateLimited
        else SearchError.FetchFailed) := by
  have hmain : (handleSearch input nowMs st
      (FetchOutcome.response status hdr body) repoNet
      profileFirst).outcome = SearchOutcome.failure (profileErrorFor status) := by
    unfold handleSearch
    rw [if_neg huser]
    rw [if_neg (by simp [hrate] : ¬ (checkRateLimit st nowMs = false))]
    cases repoNet with
    | response rs rh rb =>
      cases hrs : okStatus rs <;>
        simp [fetchUserProfile, fetchUserRepositories, hbad, hrs,
          promiseAllJoin]
    | transportError =>
      rcases hrepo with h | h
      · exact absurd rfl h
      · subst h
        simp [fetchUserProfile, fetchUserRepositories, hbad, promiseAllJoin]
  rw [hmain]
  exact specSearchResult_profileErrorFor status

/-- C1, witness: a 404 profile response together with a successful
repository response yields `UserNotFound`. -/
theorem profile_status_determines_error_witness :
    specSearchResult (handleSearch (α := Unit) (γ := Unit) "octocat" 0
        ⟨some 60, some 0⟩ (FetchOutcome.response 404 ⟨none, none⟩ ())
        (FetchOutcome.response 200 ⟨none, none⟩ []) true).outcome =
      Except.error SearchError.UserNotFound := by
  have h := profile_status_determines_error (γ := Unit) "octocat" 0
    ⟨some 60, some 0⟩ 404 ⟨none, none⟩ ()
    (FetchOutcome.response 200 ⟨none, none⟩ []) true
    (by decide) (by decide) (by decide) (Or.inl (by decide))
  simpa using h

/-- C1, counterexample: with a 404 profile response but a repository fetch
that rejects at transport level and settles first, `Promise.all` rejects
with the repository's transport error, so the search surfaces
`FetchFailed` instead of the status-determined `UserNotFound`. -/
theorem repo_transport_masks_profile_error :
    specSearchResult (handleSearch (α := Unit) (γ := Unit) "octocat" 0
        ⟨some 60, some 0⟩ (FetchOutcome.response 404 ⟨none, none⟩ ())
        FetchOutcome.transportError false).outcome =
      Except.error SearchError.FetchFailed ∧
    SearchError.FetchFailed ≠ SearchError.UserNotFound := by
  exact ⟨rfl, by decide⟩

/-- C2 (amended): when the profile fetch succeeds, a repository fetch that
completes with any HTTP response still lets the search succeed — a
non-success repository status degrades to the empty repository list; but a
repository fetch that rejects at transport level is not caught and fails
the whole search. This theorem proves the positive half, for every HTTP
repository outcome. -/
theorem repo_http_failure_degrades {α γ : Type} (input : String)
    (nowMs : Int) (st : RateState) (ps : Nat) (ph : Headers) (pb : α)
    (rs : Nat) (rh : Headers) (rb : List γ) (profileFirst : Bool)
    (huser : jsTrim input ≠ "")
    (hrate : checkRateLimit st nowMs = true)
    (hok : okStatus ps = true) :
    handleSearch input nowMs st (FetchOutcome.response ps ph pb)
        (FetchOutcome.response rs rh rb) profileFirst =
      ⟨SearchOutcome.success pb (if okStatus rs then rb else []),
        updateRateLimit ph, true, true, true⟩ ∧
    specSearchResult (handleSearch input nowMs st
        (FetchOutcome.response ps ph pb) (FetchOutcome.response rs rh rb)
        profileFirst).outcome =
      Except.ok (pb, if okStatus rs then rb else []) := by
  have hmain : handleSearch input nowMs st (FetchOutcome.response ps ph pb)
      (FetchOutcome.response rs rh rb) profileFirst =
      ⟨SearchOutcome.success pb (if okStatus rs then rb else []),
        updateRateLimit ph, true, true, true⟩ := by
    unfold handleSearch
    rw [if_neg huser]
    rw [if_neg (by simp [hrate] : ¬ (checkRateLimit st nowMs = false))]
    cases hrs : okStatus rs <;>
      simp [fetchUserProfile, fetchUserRepositories, hok, hrs,
        promiseAllJoin]
  refine ⟨hmain, ?_⟩
  rw [hmain]
  simp [specSearchResult]

/-- C2, witness: a 500 repository response degrades to an empty list while
the search still succeeds. -/
theorem repo_http_failure_degrades_witness :
    handleSearch (α := Unit) (γ := Unit) "octocat" 0 ⟨some 60, some 0⟩
        (FetchOutcome.response 200 ⟨some "41", some "99"⟩ ())
        (FetchOutcome.response 500 ⟨none, none⟩ []) true =
      ⟨SearchOutcome.success () (if okStatus 500 then [] else []),
        updateRateLimit ⟨some "41", some "99"⟩, true, true, true⟩ :=
  (repo_http_failure_degrades "octocat" 0 ⟨some 60, some 0⟩ 200
    ⟨some "41", some "99"⟩ () 500 ⟨none, none⟩ [] true
    (by decide) (by decide) (by decide)).1

/-- C2, counterexample: a transport-level repository failure is not
degraded to an empty list — with a successful 200 profile response the
whole search fails (`Promise.all` rejects with the uncaught `fetch`
rejection, surfaced as `FetchFailed`). -/
theorem repo_transport_fails_search :
    (handleSearch (α := Unit) (γ := Unit) "octocat" 0 ⟨some 60, some 0⟩
        (FetchOutcome.response 200 ⟨none, none⟩ ())
        FetchOutcome.transportError true).outcome =
      SearchOutcome.failure JsError.transport ∧
    specSearchResult ((handleSearch (α := Unit) (γ := Unit) "octocat" 0
        ⟨some 60, some 0⟩ (FetchOutcome.response 200 ⟨none, none⟩ ())
        FetchOutcome.transportError true).outcome) =
      Except.error SearchError.FetchFailed := by
  exact ⟨rfl, rfl⟩

/-- C4 (amended): whenever the stored remaining count is 0 and the current
time is strictly before the reset instant, a search on any input that is
non-empty after trimming short-circuits to `RateLimited`: the gate is
consulted and neither the profile fetch nor the repository fetch is
issued, whatever outcomes they would have had. -/
theorem rate_gate_blocks_search {α γ : Type} (input : String)
    (nowMs t : Int) (st : RateState) (profileNet : FetchOutcome α)
    (repoNet : FetchOutcome (List γ)) (profileFirst : Bool)
    (huser : jsTrim input ≠ "")
    (hrem : st.remaining = some 0)
    (hreset : st.reset = some t)
    (hnow : nowMs < t * 1000) :
    handleSearch input nowMs st profileNet repoNet profileFirst =
      ⟨SearchOutcome.rateLimitedLocal, st, true, false, false⟩ ∧
    specSearchResult (handleSearch input nowMs st profileNet repoNet
        profileFirst).outcome = Except.error SearchError.RateLimited := by
  have hck : checkRateLimit st nowMs = false := by
    rcases st with ⟨rem, res⟩
    simp only at hrem hreset
    subst hrem
    subst hreset
    simp [checkRateLimit, hnow]
  have hmain : handleSearch input nowMs st profileNet repoNet profileFirst =
      ⟨SearchOutcome.rateLimitedLocal, st, true, false, false⟩ := by
    unfold handleSearch
    rw [if_neg huser, if_pos hck]
  refine ⟨hmain, ?_⟩
  rw [hmain]
  rfl

/-- C4, witness: an exhausted gate before its reset time blocks a concrete
search without issuing either fetch. -/
theorem rate_gate_blocks_search_witness :
    handleSearch (α := Unit) (γ := Unit) "octocat" 0 ⟨some 0, some 10⟩
        FetchOutcome.transportError FetchOutcome.transportError true =
      ⟨SearchOutcome.rateLimitedLocal, ⟨some 0, some 10⟩,
        true, false, false⟩ :=
  (rate_gate_blocks_search "octocat" 0 10 ⟨some 0, some 10⟩
    FetchOutcome.transportError FetchOutcome.transportError true
    (by decide) rfl rfl (by decide)).1

/-- C4, counterexample: a whitespace-only username is non-empty, yet with
the gate exhausted (remaining 0, current time 0 before reset 10) the
search returns `InvalidInput`, not `RateLimited` — input validation runs
before the gate. -/
theorem whitespace_username_not_rate_limited :
    (handleSearch (α := Unit) (γ := Unit) " " 0 ⟨some 0, some 10⟩
        FetchOutcome.transportError FetchOutcome.transportError
        true).outcome = SearchOutcome.invalidInput ∧
    specSearchResult ((handleSearch (α := Unit) (γ := Unit) " " 0
        ⟨some 0, some 10⟩ FetchOutcome.transportError
        FetchOutcome.transportError true).outcome) =
      Except.error SearchError.InvalidInput ∧
    SearchError.InvalidInput ≠ SearchError.RateLimited ∧
    ((0 : Int) < 10 * 1000) := by
  exact ⟨rfl, rfl, by decide, by decide⟩

/-- Fuel-driven floor of the base-2 logarithm (structural so that the
kernel can evaluate it); the fuel argument only bounds the number of
halvings. -/
def log2fuel : Nat → Nat → Nat
  | 0, _ => 0
  | fuel + 1, n => if 2 ≤ n then log2fuel fuel (n / 2) + 1 else 0

/-- Floor of the base-2 logarithm of a positive natural number. -/
def natLog2 (n : Nat) : Nat := log2fuel n n

/-- Round the exact ratio `p / q` to the nearest integer, ties to even —
the IEEE-754 default rounding used when a quotient is converted to a
double. -/
def roundHalfEvenDiv (p q : Nat) : Nat :=
  let d := p / q
  let r := p % q
  if 2 * r < q then d
  else if q < 2 * r then d + 1
  else if d % 2 = 0 then d else d + 1

/-- Does the binade exponent `e` normalise `p / q`, i.e. is
`2^52 ≤ (p / q) / 2^e < 2^53`?  Stated over integers by scaling both
sides. -/
def fitsExp (p q : Nat) (e : Int) : Bool :=
  if 0 ≤ e then
    decide (q * 2 ^ 52 * 2 ^ e.toNat ≤ p) &&
      decide (p < q * 2 ^ 53 * 2 ^ e.toNat)
  else
    decide (q * 2 ^ 52 ≤ p * 2 ^ (-e).toNat) &&
      decide (p * 2 ^ (-e).toNat < q * 2 ^ 53)

/-- The 53-bit significand of `p / q` at binade exponent `e`. -/
def sigAt (p q : Nat) (e : Int) : Nat :=
  if 0 ≤ e then roundHalfEvenDiv p (q * 2 ^ e.toNat)
  else roundHalfEvenDiv (p * 2 ^ (-e).toNat) q

/-- The IEEE-754 double nearest to the positive rational `p / q`, as a
significand/exponent pair `(m, e)` of value `m * 2^e`.  The true binade
exponent always lies within two of the logarithm estimate, so the
candidate list finds it; inputs here are far above the subnormal range. -/
def doubleOfRat (p q : Nat) : Nat × Int :=
  if p = 0 || q = 0 then (0, 0)
  else
    let l : Int := (natLog2 p : Int) - (natLog2 q : Int) - 53
    match [l - 2, l - 1, l, l + 1, l + 2].find? (fun e => fitsExp p q e) with
    | some e => (sigAt p q e, e)
    | none => (0, 0)

/-- The integer number of tenths printed by `toFixed(1)` for the double
`m * 2^e`: the `t` minimising `|t / 10 - m * 2^e|`, the larger on ties
(ECMAScript `Number.prototype.toFixed`). -/
def tenths (m : Nat) (e : Int) : Nat :=
  if 0 ≤ e then 10 * m * 2 ^ e.toNat
  else (20 * m + 2 ^ (-e).toNat) / 2 ^ ((-e).toNat + 1)

/-- `(x).toFixed(1)` for the nonnegative double `m * 2^e`: one digit after
the decimal point. -/
def toFixedOne (m : Nat) (e : Int) : String :=
  toString (tenths m e / 10) ++ "." ++ toString (tenths m e % 10)

/-- `formatNumber` (src/script.js lines 273-280) on a nonnegative integer
count (every such count below 2^53 is an exact double): at or above one
million, divide by 1e6 as doubles and render with `toFixed(1)` and an `M`
suffix; at or above one thousand, likewise with 1e3 and `K`; otherwise the
plain decimal string. -/
def formatNumber (num : Nat) : String :=
  if 1000000 ≤ num then
    toFixedOne (doubleOfRat num 1000000).1 (doubleOfRat num 1000000).2 ++ "M"
  else if 1000 ≤ num then
    toFixedOne (doubleOfRat num 1000).1 (doubleOfRat num 1000).2 ++ "K"
  else
    toString num

/-- C6 (amended): `formatNumber` returns the plain integer decimal string
when `n` is strictly below 1,000; a one-decimal abbreviation suffixed `K`
when `n` is at least 1,000 and strictly below 1,000,000; and a one-decimal
abbreviation suffixed `M` when `n` is at least 1,000,000 (so 1,000 itself
renders as `1.0K` and 1,000,000 as `1.0M`); in particular
`formatNumber 999 = "999"`, `formatNumber 1500 = "1.5K"` and
`formatNumber 2500000 = "2.5M"`. -/
theorem formatNumber_thresholds :
    (∀ n : Nat, n < 1000 → formatNumber n = toString n) ∧
    (∀ n : Nat, 1000 ≤ n → n < 1000000 →
      ∃ t : Nat, formatNumber n =
        toString (t / 10) ++ "." ++ toString (t % 10) ++ "K") ∧
    (∀ n : Nat, 1000000 ≤ n →
      ∃ t : Nat, formatNumber n =
        toString (t / 10) ++ "." ++ toString (t % 10) ++ "M") ∧
    (formatNumber 999 = "999" ∧ formatNumber 1500 = "1.5K" ∧
      formatNumber 2500000 = "2.5M") := by
  refine ⟨?_, ?_, ?_, by decide, by decide, by decide⟩
  · intro n h
    have h1 : ¬ (1000000 ≤ n) := by omega
    have h2 : ¬ (1000 ≤ n) := by omega
    simp [formatNumber, h1, h2]
  · intro n h1 h2
    have hA : ¬ (1000000 ≤ n) := by omega
    refine ⟨tenths (doubleOfRat n 1000).1 (doubleOfRat n 1000).2, ?_⟩
    simp [formatNumber, hA, h1, toFixedOne]
  · intro n h1
    refine ⟨tenths (doubleOfRat n 1000000).1 (doubleOfRat n 1000000).2, ?_⟩
    simp [formatNumber, h1, toFixedOne]

/-- C6, witness: concrete instances of the three branches of
`formatNumber_thresholds`. -/
theorem formatNumber_thresholds_witness :
    formatNumber 42 = "42" ∧
    (∃ t : Nat, formatNumber 2000 =
      toString (t / 10) ++ "." ++ toString (t % 10) ++ "K") ∧
    (∃ t : Nat, formatNumber 3000000 =
      toString (t / 10) ++ "." ++ toString (t % 10) ++ "M") :=
  ⟨formatNumber_thresholds.1 42 (by decide),
   formatNumber_thresholds.2.1 2000 (by decide) (by decide),
   formatNumber_thresholds.2.2.1 3000000 (by decide)⟩

/-- C6, counterexample: the thresholds are inclusive, not exclusive — at
exactly 1,000 the code abbreviates to `1.0K` rather than returning the
plain string `1000`, and at exactly 1,000,000 it renders `1.0M`, not a
`K` abbreviation. -/
theorem formatNumber_boundary_1000 :
    formatNumber 1000 = "1.0K" ∧ ("1.0K" : String) ≠ "1000" ∧
      formatNumber 1000000 = "1.0M" := by
  refine ⟨by decide, by decide, by decide⟩

/-- English month names as produced by `toLocaleDateString` with locale
`en-US` and option `month: 'long'`. -/
def monthName : Nat → String
  | 1 => "January"
  | 2 => "February"
  | 3 => "March"
  | 4 => "April"
  | 5 => "May"
  | 6 => "June"
  | 7 => "July"
  | 8 => "August"
  | 9 => "September"
  | 10 => "October"
  | 11 => "November"
  | 12 => "December"
  | _ => ""

/-- Numeric value of a two-digit character pair. -/
def twoDigitVal (a b : Char) : Nat := decDigitVal a * 10 + decDigitVal b

/-- Numeric value of a four-digit character group. -/
def fourDigitVal (a b c d : Char) : Nat :=
  ((decDigitVal a * 10 + decDigitVal b) * 10 + decDigitVal c) * 10 +
    decDigitVal d

/-- Gregorian leap-year rule. -/
def isLeapYear (y : Nat) : Bool :=
  (y % 4 = 0 && y % 100 ≠ 0) || y % 400 = 0

/-- Days in a month of the proleptic Gregorian calendar. -/
def daysInMonth (y m : Nat) : Nat :=
  if m = 2 then (if isLeapYear y then 29 else 28)
  else if m = 4 || m = 6 || m = 9 || m = 11 then 30 else 31

/-- The time-of-day suffixes accepted by the model: nothing (a date-only
string) or the `THH:MM:SSZ` form the GitHub API emits in `created_at`. -/
def validTimePart (l : List Char) : Bool :=
  match l with
  | [] => true
  | 'T' :: h1 :: h2 :: ':' :: m1 :: m2 :: ':' :: s1 :: s2 :: 'Z' :: [] =>
    ([h1, h2, m1, m2, s1, s2].all Char.isDigit) &&
      twoDigitVal h1 h2 ≤ 23 && twoDigitVal m1 m2 ≤ 59 &&
      twoDigitVal s1 s2 ≤ 59
  | _ => false

/-- `new Date(dateString)` restricted to the ISO `YYYY-MM-DD[THH:MM:SSZ]`
strings the GitHub API emits, returning the UTC year and month: syntactic
day range 01-31, with a day past the month's end rolling into the next
month exactly as ECMAScript `MakeDay` does; anything else is an Invalid
Date (`none`). -/
def parseJoinedDate (s : String) : Option (Nat × Nat) :=
  match s.data with
  | y1 :: y2 :: y3 :: y4 :: '-' :: m1 :: m2 :: '-' :: a1 :: a2 :: rest =>
    if ([y1, y2, y3, y4, m1, m2, a1, a2].all Char.isDigit) &&
        validTimePart rest then
      let y := fourDigitVal y1 y2 y3 y4
      let m := twoDigitVal m1 m2
      let d := twoDigitVal a1 a2
      if 1 ≤ m && m ≤ 12 && 1 ≤ d && d ≤ 31 then
        some (if d ≤ daysInMonth y m then (y, m)
          else if m = 12 then (y + 1, 1) else (y, m + 1))
      else none
    else none
  | _ => none

/-- `formatJoinDate` (src/script.js lines 282-288): render the parsed
timestamp as `Joined <Month> <Year>` via `toLocaleDateString('en-US',
{year: 'numeric', month: 'long'})`, with UTC as the display time zone; an
unparseable string renders as `Invalid Date`. -/
def formatJoinDate (s : String) : String :=
  match parseJoinedDate s with
  | some ym => "Joined " ++ monthName ym.2 ++ " " ++ toString ym.1
  | none => "Joined Invalid Date"

/-- C9: every timestamp that parses to a year and month renders as
`Joined <Month> <Year>` with the English month name and the decimal year
(four digits for every GitHub-era year); in particular the 2011-03-19
timestamp renders as `Joined March 2011`. -/
theorem formatJoinDate_shape :
    (∀ (s : String) (y m : Nat), parseJoinedDate s = some (y, m) →
      formatJoinDate s = "Joined " ++ monthName m ++ " " ++ toString y) ∧
    formatJoinDate "2011-03-19T00:31:12Z" = "Joined March 2011" := by
  constructor
  · intro s y m h
    unfold formatJoinDate
    rw [h]
  · decide

/-- C9, witness: a concrete date-only timestamp rendered through the
general clause of `formatJoinDate_shape`. -/
theorem formatJoinDate_shape_witness :
    formatJoinDate "2020-01-15" = "Joined " ++ monthName 1 ++ " " ++
      toString (2020 : Nat) :=
  formatJoinDate_shape.1 "2020-01-15" 2020 1 (by decide)

/-- `addToHistory` (src/script.js lines 431-439): skip a username already
present; otherwise push it to the front, drop the last entry when the
length exceeds 5, and write the result to local storage.  The second
component is the storage write: `none` means `localStorage.setItem` was
not called. -/
def addToHistory (history : List String) (username : String) :
    List String × Option (List String) :=
  if history.contains username then (history, none)
  else
    let h1 := username :: history
    let h2 := if 5 < h1.length then h1.dropLast else h1
    (h2, some h2)

/-- One `addToHistory` step preserves the history bound and
duplicate-freedom. -/
theorem addToHistory_step_inv (h : List String) (u : String)
    (hlen : h.length ≤ 5) (hnd : h.Nodup) :
    (addToHistory h u).1.length ≤ 5 ∧ (addToHistory h u).1.Nodup := by
  by_cases hc : h.contains u
  · simp only [addToHistory, hc, if_pos]
    exact ⟨hlen, hnd⟩
  · have hu : u ∉ h := by
      intro hmem
      exact hc (List.elem_iff.mpr hmem)
    have hcons : (u :: h).Nodup := List.nodup_cons.mpr ⟨hu, hnd⟩
    simp only [addToHistory, hc, if_neg, Bool.false_eq_true,
      not_false_iff]
    by_cases h5 : 5 < (u :: h).length
    · simp only [h5, if_pos]
      constructor
      · rw [List.length_dropLast]
        simp only [List.length_cons]
        omega
      · exact List.Nodup.sublist (List.dropLast_sublist _) hcons
    · simp only [h5, if_neg, not_false_iff]
      constructor
      · simp only [List.length_cons] at h5 ⊢
        omega
      · exact hcons

/-- Folding `addToHistory` over any username sequence keeps the invariant. -/
theorem foldl_addToHistory_inv (us : List String) :
    ∀ h : List String, h.length ≤ 5 → h.Nodup →
      ((us.foldl (fun acc u => (addToHistory acc u).1) h).length ≤ 5 ∧
        (us.foldl (fun acc u => (addToHistory acc u).1) h).Nodup) := by
  induction us with
  | nil => exact fun h hl hn => ⟨hl, hn⟩
  | cons u rest ih =>
    intro h hl hn
    have step := addToHistory_step_inv h u hl hn
    simpa using ih _ step.1 step.2

/-- C7: recording one more username into a stored history of at most 5
pairwise-distinct usernames keeps it at most 5 long and duplicate-free,
and hence after any sequence of searches starting from the empty history
the persisted history never exceeds 5 entries nor contains a duplicate. -/
theorem history_invariant_preserved :
    (∀ (h : List String) (u : String), h.length ≤ 5 → h.Nodup →
      (addToHistory h u).1.length ≤ 5 ∧ (addToHistory h u).1.Nodup) ∧
    (∀ us : List String,
      ((us.foldl (fun acc u => (addToHistory acc u).1) []).length ≤ 5 ∧
        (us.foldl (fun acc u => (addToHistory acc u).1) []).Nodup)) :=
  ⟨addToHistory_step_inv,
   fun us => foldl_addToHistory_inv us [] (by simp) List.nodup_nil⟩

/-- C7, witness: one step at a concrete full, duplicate-free history. -/
theorem history_invariant_preserved_witness :
    (addToHistory ["a", "b", "c", "d", "e"] "f").1.length ≤ 5 ∧
      (addToHistory ["a", "b", "c", "d", "e"] "f").1.Nodup :=
  history_invariant_preserved.1 ["a", "b", "c", "d", "e"] "f"
    (by decide) (by decide)

/-- C10: recording a username already present anywhere in the history is a
complete no-op — the list is returned unchanged (so the entry is not moved
to the front) and no storage write happens. -/
theorem duplicate_history_noop (h : List String) (u : String)
    (hmem : u ∈ h) : addToHistory h u = (h, none) := by
  have hc : h.contains u = true := List.elem_iff.mpr hmem
  simp only [addToHistory, hc, if_pos]

/-- C10, witness: re-recording the oldest entry of a concrete history
changes nothing and writes nothing. -/
theorem duplicate_history_noop_witness :
    addToHistory ["octocat", "torvalds"] "torvalds" =
      (["octocat", "torvalds"], none) :=
  duplicate_history_noop ["octocat", "torvalds"] "torvalds" (by decide)
